import Mathlib

/-!
# Verification of `scripts/update.py` (the Updater)

Shallow embedding of the repository's single script:

```python
  # (the script first imports the standard modules os and subprocess)

  def run(cmd):
      print(f"Running: {cmd}")
      subprocess.run(cmd, shell=True, check=True)

  if __name__ == "__main__":
      if os.path.exists("tools/.git"):
          run("git submodule update --remote --merge")
      else:
          print("No tools submodule found.")
```

The ambient state a run observes is captured by `World`: the kind of
filesystem object at the relative paths `tools/` and `tools/.git`, an
oracle giving the exit status the environment returns for any spawned
command string, and the command-line arguments the script was invoked
with.  A run produces an ordered trace of observable events (lines
printed to stdout and commands handed to `subprocess.run`) together
with the interpreter's final exit status.
-/

/-- The kind of filesystem object present at a path: nothing, a regular
file, a directory, a symlink whose target exists, or a dangling symlink. -/
inductive FSEntry
  | absent
  | file
  | dir
  | symlinkValid
  | symlinkBroken
deriving DecidableEq, Repr

/-- Semantics of Python's `os.path.exists(p)`: true for any object at `p`
(file or directory alike), following symlinks, so a dangling symlink or a
missing path gives `false`. -/
def os_path_exists : FSEntry → Bool
  | FSEntry.absent => false
  | FSEntry.file => true
  | FSEntry.dir => true
  | FSEntry.symlinkValid => true
  | FSEntry.symlinkBroken => false

/-- The ambient state one invocation of the script observes. -/
structure World where
  /-- Filesystem object at the relative path `tools/`. The script never
  probes this path; it is part of the world so that claims about it can be
  stated. -/
  toolsEntry : FSEntry
  /-- Filesystem object at the relative path `tools/.git`. -/
  toolsGitEntry : FSEntry
  /-- Exit status the environment returns for a spawned command string. -/
  spawnExit : String → Nat
  /-- Command-line arguments supplied to the script (`sys.argv[1:]`).
  The script never reads them. -/
  args : List String

/-- An observable event of a run, in order of occurrence. -/
inductive Event
  /-- A line printed to stdout. -/
  | out (line : String)
  /-- A command string handed to `subprocess.run(..., shell=True)`. -/
  | spawn (cmd : String)
deriving DecidableEq, Repr

/-- Result of executing a fragment of the script: normal completion, or an
uncaught `subprocess.CalledProcessError` carrying the child's return code. -/
inductive PyResult
  | ok
  | calledProcessError (returncode : Nat)
deriving DecidableEq, Repr

/-- Semantics of `subprocess.run(cmd, shell=True, check=True)`: spawn `cmd`,
wait for it, and raise `CalledProcessError(returncode)` exactly when the
child's exit status is non-zero. -/
def subprocess_run_check (spawnExit : String → Nat) (cmd : String) :
    List Event × PyResult :=
  let code := spawnExit cmd
  ([Event.spawn cmd],
   if code = 0 then PyResult.ok else PyResult.calledProcessError code)

/-- Embedding of `def run(cmd)`: print `Running: {cmd}`, then
`subprocess.run(cmd, shell=True, check=True)`. -/
def run (spawnExit : String → Nat) (cmd : String) : List Event × PyResult :=
  let (ev, r) := subprocess_run_check spawnExit cmd
  (Event.out ("Running: " ++ cmd) :: ev, r)

/-- Embedding of the `if __name__ == "__main__":` block: probe
`tools/.git` with `os.path.exists` and dispatch. -/
def main_block (w : World) : List Event × PyResult :=
  if os_path_exists w.toolsGitEntry then
    run w.spawnExit "git submodule update --remote --merge"
  else
    ([Event.out "No tools submodule found."], PyResult.ok)

/-- CPython's process exit status: 0 on normal completion of the script;
an uncaught exception aborts the interpreter with exit status 1 (the
child's own return code is not forwarded). -/
def interpreterExitStatus : PyResult → Nat
  | PyResult.ok => 0
  | PyResult.calledProcessError _ => 1

/-- What one invocation of the script observably does. -/
structure Outcome where
  /-- Ordered trace of prints and spawns. -/
  trace : List Event
  /-- The script process's exit status. -/
  exitStatus : Nat
deriving DecidableEq, Repr

/-- Lines printed to stdout, in order. -/
def Outcome.stdout (o : Outcome) : List String :=
  o.trace.filterMap fun e =>
    match e with
    | Event.out l => some l
    | Event.spawn _ => none

/-- Commands handed to `subprocess.run`, in order. -/
def Outcome.spawned (o : Outcome) : List String :=
  o.trace.filterMap fun e =>
    match e with
    | Event.out _ => none
    | Event.spawn c => some c

/-- One complete invocation of the script in world `w`. -/
def updater (w : World) : Outcome :=
  let (tr, r) := main_block w
  { trace := tr, exitStatus := interpreterExitStatus r }

/-- The one command the script ever runs. -/
def updaterCmd : String := "git submodule update --remote --merge"

/-! ## Branch characterisations -/

/-- On the update branch, the run announces the command, spawns it once, and
the interpreter exits 0 on child success and 1 on an uncaught
`CalledProcessError`. -/
theorem updater_present (w : World) (h : os_path_exists w.toolsGitEntry = true) :
    updater w =
      { trace := [Event.out ("Running: " ++ updaterCmd), Event.spawn updaterCmd],
        exitStatus := if w.spawnExit updaterCmd = 0 then 0 else 1 } := by
  unfold updater main_block run subprocess_run_check updaterCmd
  rw [h]
  by_cases hc : w.spawnExit "git submodule update --remote --merge" = 0 <;>
    simp [hc, interpreterExitStatus]

/-- On the absent branch, the run prints the notice and exits 0. -/
theorem updater_absent (w : World) (h : os_path_exists w.toolsGitEntry = false) :
    updater w = { trace := [Event.out "No tools submodule found."], exitStatus := 0 } := by
  unfold updater main_block
  rw [h]
  simp [interpreterExitStatus]

/-- `os.path.exists` is true exactly for a file, a directory, or a symlink
with an existing target. -/
theorem os_path_exists_iff (e : FSEntry) :
    os_path_exists e = true ↔
      (e = FSEntry.file ∨ e = FSEntry.dir ∨ e = FSEntry.symlinkValid) := by
  cases e <;> simp [os_path_exists]

/-! ## Concrete worlds used as test inputs -/

/-- `tools/.git` is a directory; the spawned command fails with status 2. -/
def wDirFail : World :=
  { toolsEntry := FSEntry.dir, toolsGitEntry := FSEntry.dir,
    spawnExit := fun _ => 2, args := [] }

/-- `tools/.git` is a directory; the spawned command succeeds. -/
def wDirOk : World :=
  { toolsEntry := FSEntry.dir, toolsGitEntry := FSEntry.dir,
    spawnExit := fun _ => 0, args := [] }

/-- `tools/.git` is a regular file (as in a real git submodule checkout). -/
def wFileOk : World :=
  { toolsEntry := FSEntry.dir, toolsGitEntry := FSEntry.file,
    spawnExit := fun _ => 0, args := [] }

/-- No `tools` directory at all. -/
def wNoTools : World :=
  { toolsEntry := FSEntry.absent, toolsGitEntry := FSEntry.absent,
    spawnExit := fun _ => 0, args := [] }

/-- An empty `tools/` directory with no `tools/.git` entry. -/
def wEmptyTools : World :=
  { toolsEntry := FSEntry.dir, toolsGitEntry := FSEntry.absent,
    spawnExit := fun _ => 3, args := [] }

/-- `tools/.git` is a symlink to an existing target; command succeeds. -/
def wSymlinkOk : World :=
  { toolsEntry := FSEntry.absent, toolsGitEntry := FSEntry.symlinkValid,
    spawnExit := fun _ => 0, args := ["extra"] }

/-! ## Claims -/

/-- C1 counterexample: with `tools/.git` present and the spawned command
exiting with status 2, the script exits with status 1, not 2 — the script's
exit status does not equal the command's exit status, refuting the claim as
stated. -/
theorem C1_counterexample :
    (updater wDirFail).spawned = [updaterCmd] ∧
    wDirFail.spawnExit updaterCmd = 2 ∧
    (updater wDirFail).exitStatus = 1 := by
  refine ⟨rfl, rfl, rfl⟩

/-- C1 (amended): in any world where `tools/.git` exists, the Updater spawns
exactly the command `git submodule update --remote --merge` and no other,
and exits with status 0 when that command exits 0 and with the fixed status
1 when it exits non-zero (the command's own status is not forwarded). -/
theorem C1_spawn_exact_and_exit (w : World)
    (h : os_path_exists w.toolsGitEntry = true) :
    (updater w).spawned = [updaterCmd] ∧
    (updater w).exitStatus = (if w.spawnExit updaterCmd = 0 then 0 else 1) := by
  rw [updater_present w h]
  constructor
  · simp [Outcome.spawned]
  · rfl

/-- C1 witness: the amended claim instantiated at a concrete world where
`tools/.git` is a directory and the command succeeds. -/
theorem C1_spawn_exact_and_exit_witness :
    (updater wDirOk).spawned = [updaterCmd] ∧
    (updater wDirOk).exitStatus = (if wDirOk.spawnExit updaterCmd = 0 then 0 else 1) :=
  C1_spawn_exact_and_exit wDirOk rfl

/-- C2 counterexample: a regular file at `tools/.git` (not a directory)
still triggers the update branch, refuting the claim that only a directory
does. -/
theorem C2_counterexample :
    wFileOk.toolsGitEntry = FSEntry.file ∧
    wFileOk.toolsGitEntry ≠ FSEntry.dir ∧
    (updater wFileOk).spawned = [updaterCmd] := by
  refine ⟨rfl, by decide, rfl⟩

/-- C2 (amended): the Updater takes the update branch if and only if some
filesystem object exists at `tools/.git` — a regular file, a directory, or a
symlink resolving to an existing target; an absent path or dangling symlink
does not trigger it. -/
theorem C2_any_object_triggers (w : World) :
    (updater w).spawned = [updaterCmd] ↔
      (w.toolsGitEntry = FSEntry.file ∨ w.toolsGitEntry = FSEntry.dir ∨
       w.toolsGitEntry = FSEntry.symlinkValid) := by
  rw [← os_path_exists_iff]
  by_cases h : os_path_exists w.toolsGitEntry
  · rw [updater_present w h]
    simp [Outcome.spawned, h]
  · have h0 : os_path_exists w.toolsGitEntry = false := by simpa using h
    rw [updater_absent w h0]
    simp [Outcome.spawned, h0]

/-- C3: in any world where `os.path.exists("tools/.git")` is false, the
Updater prints exactly the line `No tools submodule found.`, spawns no
process, and exits with status 0. -/
theorem C3_absent_notice_no_spawn (w : World)
    (h : os_path_exists w.toolsGitEntry = false) :
    (updater w).stdout = ["No tools submodule found."] ∧
    (updater w).spawned = [] ∧
    (updater w).exitStatus = 0 := by
  rw [updater_absent w h]
  refine ⟨?_, ?_, rfl⟩ <;> simp [Outcome.stdout, Outcome.spawned]

/-- C3 witness: the claim instantiated at the world with no `tools`
directory at all. -/
theorem C3_absent_notice_no_spawn_witness :
    (updater wNoTools).stdout = ["No tools submodule found."] ∧
    (updater wNoTools).spawned = [] ∧
    (updater wNoTools).exitStatus = 0 :=
  C3_absent_notice_no_spawn wNoTools rfl

/-- C4: in every world the Updater spawns at most one command (no retry),
and its exit status is 0 exactly when the marker is absent or the spawned
command succeeded; a non-zero command status is propagated as a non-zero
script exit, never suppressed. -/
theorem C4_failure_propagated (w : World) :
    (updater w).spawned.length ≤ 1 ∧
    ((updater w).exitStatus = 0 ↔
      (os_path_exists w.toolsGitEntry = false ∨ w.spawnExit updaterCmd = 0)) := by
  by_cases h : os_path_exists w.toolsGitEntry
  · rw [updater_present w h]
    by_cases hc : w.spawnExit updaterCmd = 0 <;>
      simp [Outcome.spawned, h, hc]
  · have h0 : os_path_exists w.toolsGitEntry = false := by simpa using h
    rw [updater_absent w h0]
    simp [Outcome.spawned, h0]

/-- C5: a world with an empty `tools/` directory but no `tools/.git` entry
behaves exactly as the marker-absent case: the notice is printed, nothing is
spawned, and the exit status is 0. -/
theorem C5_tools_dir_without_marker (w : World)
    (hd : w.toolsEntry = FSEntry.dir)
    (hg : w.toolsGitEntry = FSEntry.absent) :
    (updater w).stdout = ["No tools submodule found."] ∧
    (updater w).spawned = [] ∧
    (updater w).exitStatus = 0 := by
  have h : os_path_exists w.toolsGitEntry = false := by rw [hg]; rfl
  rw [updater_absent w h]
  refine ⟨?_, ?_, rfl⟩ <;> simp [Outcome.stdout, Outcome.spawned]

/-- C5 witness: the claim instantiated at the world with an empty `tools/`
directory. -/
theorem C5_tools_dir_without_marker_witness :
    (updater wEmptyTools).stdout = ["No tools submodule found."] ∧
    (updater wEmptyTools).spawned = [] ∧
    (updater wEmptyTools).exitStatus = 0 :=
  C5_tools_dir_without_marker wEmptyTools rfl rfl

/-- C6: on the update branch the full event trace is the announcement line
`Running: git submodule update --remote --merge` followed by the spawn of
that command — the print occurs strictly before the spawn, for every exit
status the command may later return. -/
theorem C6_announce_before_spawn (w : World)
    (h : os_path_exists w.toolsGitEntry = true) :
    (updater w).trace =
      [Event.out ("Running: " ++ updaterCmd), Event.spawn updaterCmd] := by
  rw [updater_present w h]

/-- C6 witness: the trace order at a concrete world where the command fails,
showing the announcement is printed even then. -/
theorem C6_announce_before_spawn_witness :
    (updater wDirFail).trace =
      [Event.out ("Running: " ++ updaterCmd), Event.spawn updaterCmd] :=
  C6_announce_before_spawn wDirFail rfl

/-- C7: any two invocations whose worlds both lack the `tools/.git` marker
produce identical outcomes (same trace, hence same output, and same exit
status), regardless of anything else about the worlds — in particular of
how many invocations came before. -/
theorem C7_absent_branch_idempotent (w1 w2 : World)
    (h1 : os_path_exists w1.toolsGitEntry = false)
    (h2 : os_path_exists w2.toolsGitEntry = false) :
    updater w1 = updater w2 := by
  rw [updater_absent w1 h1, updater_absent w2 h2]

/-- C7 witness: two different marker-absent worlds yield the same outcome. -/
theorem C7_absent_branch_idempotent_witness :
    updater wNoTools = updater wEmptyTools :=
  C7_absent_branch_idempotent wNoTools wEmptyTools rfl rfl

/-- C8: the command-line arguments are never read, so two invocations of
the same world differing only in the supplied arguments produce identical
outcomes. -/
theorem C8_args_have_no_effect (w : World) (a1 a2 : List String) :
    updater { w with args := a1 } = updater { w with args := a2 } := rfl

/-- C9: whenever `tools/.git` exists and the spawned command exits with any
non-zero status, the script terminates with exit status exactly 1 — the
interpreter's uncaught-exception exit code. -/
theorem C9_failure_exit_is_one (w : World)
    (h : os_path_exists w.toolsGitEntry = true)
    (hc : w.spawnExit updaterCmd ≠ 0) :
    (updater w).exitStatus = 1 := by
  rw [updater_present w h]
  simp [hc]

/-- C9 witness: the command fails with status 2 and the script exits 1. -/
theorem C9_failure_exit_is_one_witness :
    wDirFail.spawnExit updaterCmd ≠ 0 ∧ (updater wDirFail).exitStatus = 1 :=
  ⟨by decide, C9_failure_exit_is_one wDirFail rfl (by decide)⟩

/-- C10: the Updater is deterministic in what it observes: two worlds that
agree on the truth value of the `tools/.git` existence probe and — when the
probe is true — on the exit status of the spawned command, yield identical
outcomes (same trace and same exit status). -/
theorem C10_deterministic (w1 w2 : World)
    (hp : os_path_exists w1.toolsGitEntry = os_path_exists w2.toolsGitEntry)
    (hc : os_path_exists w1.toolsGitEntry = true →
      w1.spawnExit updaterCmd = w2.spawnExit updaterCmd) :
    updater w1 = updater w2 := by
  by_cases h : os_path_exists w1.toolsGitEntry
  · have h2 : os_path_exists w2.toolsGitEntry = true := by rw [← hp]; exact h
    rw [updater_present w1 h, updater_present w2 h2, hc h]
  · have h1 : os_path_exists w1.toolsGitEntry = false := by simpa using h
    have h2 : os_path_exists w2.toolsGitEntry = false := by rw [← hp]; exact h1
    rw [updater_absent w1 h1, updater_absent w2 h2]

/-- C10 witness: a directory marker and a symlink marker with equal command
exit statuses give identical outcomes. -/
theorem C10_deterministic_witness :
    updater wDirOk = updater wSymlinkOk :=
  C10_deterministic wDirOk wSymlinkOk rfl (fun _ => rfl)
